import Mathlib

/-!
# FAQ-AI responder: shallow embedding of `src/index.js`

The bot is an event-driven orchestration of two external services (the chat
platform and the completion provider).  The embedding keeps the control flow of
every function of `index.js` and makes the outside world explicit:

* `World` is what the handlers can observe and change: the applied tags of each
  thread, the log of outbound calls made so far (with their outcome) and the
  console output;
* `Services` gives the outcome of every outbound call, indexed by the number of
  calls already made, so that each theorem quantifies over arbitrary successes
  and failures of the platform and of the provider;
* `Async α` is an `await`-style computation: it threads the `World` and may
  reject with a `JsError`, which `tryCatch` intercepts like `try/catch`.
-/

namespace FaqAI

/-! ## Data model -/

/-- Reading of the local clock: `now.getDay()` (0 = Sunday .. 6 = Saturday) and
`now.getHours()` (0 .. 23). -/
structure Clock where
  day : Nat
  hour : Nat
deriving DecidableEq, Repr

/-- Values read from `process.env`. -/
structure Env where
  QUESTION_CHANNEL_ID : String
  AI_REPLIED_TAG_ID : String
  HUMAN_REPLIED_TAG_ID : String
deriving DecidableEq, Repr

/-- The fields of a message author that the code reads. -/
structure User where
  bot : Bool
  username : String
deriving DecidableEq, Repr

/-- The fields of a fetched message that the code reads. -/
structure Message where
  author : User
  content : String
deriving DecidableEq, Repr

/-- Handle on a thread channel; its `appliedTags` live in the `World`. -/
structure Thread where
  id : String
  parentId : Option String
deriving DecidableEq, Repr

/-- Channel resolved by `client.channels.fetch` (`null` is `none` in `Services`):
only `channel.type` is read. -/
structure Channel where
  id : String
  type : Nat
deriving DecidableEq, Repr

/-- Value of `ChannelType.GuildForum` in discord.js. -/
def ChannelType.GuildForum : Nat := 15

/-- A rejected promise or thrown exception; `code` is what `err.code` reads. -/
structure JsError where
  code : Option String
deriving DecidableEq, Repr

/-- The payload of a `messageCreate` event. -/
structure MessageEvent where
  author : User
  channelIsThread : Bool
  channel : Thread
  mentionsClientUser : Bool
deriving DecidableEq, Repr

/-- Outbound calls to the chat platform and to the completion provider. -/
inductive Call where
  | channelsFetch (id : String)
  | fetchActive (channel : String)
  | messagesFetch (thread : String) (limit : Nat)
  | completionsCreate (model : String) (maxTokens : Nat) (system : String) (user : String)
  | send (thread : String) (text : String)
  | setAppliedTags (thread : String) (tags : List String)
deriving DecidableEq, Repr

/-- One outbound call together with whether it resolved (`true`) or rejected. -/
structure Entry where
  call : Call
  ok : Bool
deriving DecidableEq, Repr

/-- Outcome of each outbound call, as a function of how many calls were made
before it.  `completionsCreate` resolves to the `message.content` of each element
of `res.choices` (`none` is a `null` content). -/
structure Services where
  channelsFetch : Nat → Except JsError (Option Channel)
  fetchActive : Nat → Except JsError (List Thread)
  messagesFetch : Nat → Except JsError (List Message)
  completionsCreate : Nat → Except JsError (List (Option String))
  send : Nat → Except JsError Unit
  setAppliedTags : Nat → Except JsError Unit

/-- Observable state: `thread.appliedTags` of every thread, the outbound calls
made so far (oldest first) and the console lines. -/
structure World where
  appliedTags : String → List String
  calls : List Entry
  console : List String

/-! ## Asynchronous computations -/

/-- An `async` computation over the world that resolves or rejects. -/
def Async (α : Type) : Type := World → Except JsError α × World

namespace Async

/-- Resolve immediately. -/
def resolve {α : Type} (a : α) : Async α := fun w => (Except.ok a, w)

/-- Throw: reject with an error. -/
def reject {α : Type} (e : JsError) : Async α := fun w => (Except.error e, w)

/-- Sequencing of `await`: a rejection skips the continuation. -/
def andThen {α β : Type} (m : Async α) (f : α → Async β) : Async β := fun w =>
  match m w with
  | (Except.ok a, w1) => f a w1
  | (Except.error e, w1) => (Except.error e, w1)

/-- Behaviour of `try m catch (err) h`. -/
def tryCatch {α : Type} (m : Async α) (h : JsError → Async α) : Async α := fun w =>
  match m w with
  | (Except.ok a, w1) => (Except.ok a, w1)
  | (Except.error e, w1) => h e w1

instance : Monad Async where
  pure := resolve
  bind := andThen

end Async

/-- Whether an outcome is a resolution. -/
def resolved {α : Type} : Except JsError α → Bool
  | Except.ok _ => true
  | Except.error _ => false

/-- Perform an outbound call: its outcome is given by the services at the current
position, and the call is appended to the log. -/
def request {α : Type} (outcome : Nat → Except JsError α) (call : Call) : Async α := fun w =>
  let r := outcome w.calls.length
  (r, { w with calls := w.calls ++ [⟨call, resolved r⟩] })

/-- Console output of `console.log` and `console.error` (label only). -/
def consoleLog (line : String) : Async Unit := fun w =>
  (Except.ok (), { w with console := w.console ++ [line] })

/-- Read `thread.appliedTags`. -/
def Thread.appliedTags (thread : Thread) : Async (List String) := fun w =>
  (Except.ok (w.appliedTags thread.id), w)

/-- Call `thread.messages.fetch` with the given `limit`: messages come most recent
first. -/
def Thread.messagesFetch (svc : Services) (thread : Thread) (limit : Nat) :
    Async (List Message) :=
  request svc.messagesFetch (Call.messagesFetch thread.id limit)

/-- Call `thread.send(text)`. -/
def Thread.send (svc : Services) (thread : Thread) (text : String) : Async Unit :=
  request svc.send (Call.send thread.id text)

/-- Call `thread.setAppliedTags(tags)`: when the platform accepts the edit the
thread's `appliedTags` become `tags`; a rejected edit leaves them as they were. -/
def Thread.setAppliedTags (svc : Services) (thread : Thread) (tags : List String) :
    Async Unit := fun w =>
  let r := svc.setAppliedTags w.calls.length
  let log := w.calls ++ [⟨Call.setAppliedTags thread.id tags, resolved r⟩]
  match r with
  | Except.ok _ =>
    (r, { w with
            appliedTags := fun t => if t = thread.id then tags else w.appliedTags t,
            calls := log })
  | Except.error _ => (r, { w with calls := log })

/-! ## The program -/

/-- Time gate of `index.js` lines 18-29, as a function of the clock reading. -/
def isAllowedTime (now : Clock) : Bool :=
  let day := now.day
  let hour := now.hour
  if day = 0 ∨ day = 6 then
    decide (hour ≥ 12) && decide (hour < 22)
  else
    decide (hour ≥ 7) && decide (hour < 22)

/-- The persona instruction sent as the system message. -/
def SYSTEM_PROMPT : String :=
  "\nあなたは「Cosmo Base」という、初心者歓迎の宇宙コミュニティのAIです。\n" ++
  "宇宙に詳しくない人にも寄り添い、「宇宙を身近な選択肢」に感じてもらうことが役割です。\n\n" ++
  "回答ルール：\n" ++
  "・最初の質問に対して1回だけ返信する\n" ++
  "・断定しすぎず、現実的な距離感を大切にする\n" ++
  "・専門用語は極力使わず、やさしい言葉で説明する\n" ++
  "・未来を過度に煽らない\n" ++
  "・見出しや箇条書きは使わない\n" ++
  "・質問者を否定しない\n" ++
  "・回答は3〜6文程度に収める\n\n" ++
  "文体・トーン：\n" ++
  "・落ち着いていて、少しワクワクを残す\n" ++
  "・「教える」ではなく「一緒に考える」姿勢\n" ++
  "・上から目線にならない\n\n" ++
  "回答の締め：\n" ++
  "・最後は必ず、\n" ++
  "  「他の人はどう考えているのか、ちょっと聞いてみたいな」\n" ++
  "  「いろんな視点がありそうで、気になるな」\n" ++
  "  などのように、\n" ++
  "“自分も興味を持っている”ニュアンスで終える\n" ++
  "・「聞いてみてください」「質問してみてください」は使わない\n"

/-- JavaScript truthiness of a value that is a string or `null`: only `null` and
the empty string are falsy. -/
def truthy : Option String → Bool
  | none => false
  | some s => s != ""

/-- The `TypeError` raised by reading `.message` of `undefined`. -/
def typeError : JsError := ⟨none⟩

/-- The request of lines 156-167: model, `max_tokens`, the system message and the
caller's text as the only user message (the temperature is the constant 0.4). -/
def completionCall (text : String) : Call :=
  Call.completionsCreate "gpt-4o-mini" 400 SYSTEM_PROMPT text

/-- Embedding of `generateAIReply` (lines 154-177). -/
def generateAIReply (svc : Services) (text : String) : Async (Option String) :=
  Async.tryCatch
    (do
      let res ← request svc.completionsCreate (completionCall text)
      match res with
      | [] => Async.reject typeError
      | choice :: _ => pure choice)
    (fun err =>
      if err.code = some "insufficient_quota" then do
        consoleLog "Quota不足 → スキップ"
        pure none
      else do
        consoleLog "error"
        pure none)

/-- Embedding of `handleThread` (lines 133-151). -/
def handleThread (svc : Services) (env : Env) (thread : Thread) : Async Unit :=
  Async.tryCatch
    (do
      let messages ← thread.messagesFetch svc 10
      match messages.reverse.find? (fun m => !m.author.bot) with
      | none => pure ()
      | some firstMessage => do
        consoleLog ("AI回答生成: " ++ firstMessage.content)
        let aiReply ← generateAIReply svc firstMessage.content
        if !truthy aiReply then pure ()
        else do
          thread.send svc (aiReply.getD "")
          let tags ← thread.appliedTags
          thread.setAppliedTags svc (tags ++ [env.AI_REPLIED_TAG_ID]))
    (fun _ => consoleLog "handleThread error:")

/-- The loop of `scanUnansweredThreads` (lines 125-129). -/
def scanLoop (svc : Services) (env : Env) : List Thread → Async Unit
  | [] => pure ()
  | thread :: rest => do
    let tags ← thread.appliedTags
    if tags.contains env.AI_REPLIED_TAG_ID then scanLoop svc env rest
    else do
      handleThread svc env thread
      scanLoop svc env rest

/-- Embedding of `scanUnansweredThreads` (lines 118-130). -/
def scanUnansweredThreads (svc : Services) (env : Env) (now : Clock) : Async Unit :=
  if !isAllowedTime now then pure ()
  else do
    let fetched ← request svc.channelsFetch (Call.channelsFetch env.QUESTION_CHANNEL_ID)
    match fetched with
    | none => Async.reject typeError
    | some channel =>
      if channel.type ≠ ChannelType.GuildForum then pure ()
      else do
        let threads ← request svc.fetchActive (Call.fetchActive channel.id)
        scanLoop svc env threads

/-- The `clientReady` handler (lines 61-68). -/
def onClientReady (svc : Services) (env : Env) (now : Clock) : Async Unit := do
  consoleLog "Logged in"
  Async.tryCatch (scanUnansweredThreads svc env now)
    (fun _ => consoleLog "起動スキャン失敗:")

/-- The `threadCreate` handler (lines 72-81). -/
def onThreadCreate (svc : Services) (env : Env) (now : Clock) (thread : Thread) :
    Async Unit :=
  Async.tryCatch
    (if !isAllowedTime now then pure ()
     else if thread.parentId ≠ some env.QUESTION_CHANNEL_ID then pure ()
     else do
      let tags ← thread.appliedTags
      if tags.contains env.AI_REPLIED_TAG_ID then pure ()
      else handleThread svc env thread)
    (fun _ => consoleLog "threadCreate error:")

/-- The fixed sentence that opens a reply to a mention. -/
def MENTION_LEAD_IN : String := "呼んでくれてありがとう。ちょっと考えてみたよ。\n\n"

/-- The conversation text built at lines 94-98. -/
def conversation (messages : List Message) : String :=
  "\n".intercalate
    ((messages.reverse.filter (fun m => !m.author.bot)).map
      (fun m => m.author.username ++ ": " ++ m.content))

/-- The `messageCreate` handler (lines 84-115). -/
def onMessageCreate (svc : Services) (env : Env) (now : Clock) (message : MessageEvent) :
    Async Unit :=
  if message.author.bot then pure ()
  else if !message.channelIsThread then pure ()
  else
    let thread := message.channel
    if message.mentionsClientUser then
      if !isAllowedTime now then pure ()
      else do
        consoleLog "メンション検知"
        let messages ← thread.messagesFetch svc 100
        let aiReply ← generateAIReply svc (conversation messages)
        if !truthy aiReply then pure ()
        else thread.send svc (MENTION_LEAD_IN ++ aiReply.getD "")
    else do
      let tags ← thread.appliedTags
      if !tags.contains env.HUMAN_REPLIED_TAG_ID then
        thread.setAppliedTags svc (tags ++ [env.HUMAN_REPLIED_TAG_ID])
      else pure ()

/-! ## Event sequences -/

/-- The events that can start a first answer: the startup scan and a new thread. -/
inductive Event where
  | clientReady (now : Clock)
  | threadCreate (now : Clock) (thread : Thread)
deriving DecidableEq, Repr

/-- The handler registered for an event. -/
def dispatch (svc : Services) (env : Env) : Event → Async Unit
  | Event.clientReady now => onClientReady svc env now
  | Event.threadCreate now thread => onThreadCreate svc env now thread

/-- Events handled one after another, each handler running to completion before
the next event is taken. -/
def runEvents (svc : Services) (env : Env) : List Event → World → World
  | [], w => w
  | event :: rest, w => runEvents svc env rest (dispatch svc env event w).2

/-! ## Observations on the call log -/

/-- The thread a platform call acts on, if any. -/
def Call.onThread : Call → Option String
  | Call.messagesFetch t _ => some t
  | Call.send t _ => some t
  | Call.setAppliedTags t _ => some t
  | _ => none

/-- Whether the call is a `thread.send`. -/
def Call.isSend : Call → Bool
  | Call.send _ _ => true
  | _ => false

/-- Whether the call is a `thread.setAppliedTags`. -/
def Call.isSetAppliedTags : Call → Bool
  | Call.setAppliedTags _ _ => true
  | _ => false

/-- The user text of a completion request. -/
def Call.userText : Call → Option String
  | Call.completionsCreate _ _ _ user => some user
  | _ => none

/-- The texts handed to the completion provider, in order. -/
def promptsSent (calls : List Entry) : List String :=
  calls.filterMap (fun e => e.call.userText)

/-- Whether the entry is a message really posted into thread `t`: a `send` on `t`
that resolved. -/
def Entry.postedTo (t : String) (e : Entry) : Bool :=
  match e.call with
  | Call.send x _ => e.ok && decide (x = t)
  | _ => false

/-- Number of messages the bot posted into thread `t`. -/
def repliesPosted (t : String) (calls : List Entry) : Nat :=
  (calls.filter (Entry.postedTo t)).length

/-- Whether the entry is a tag update on thread `t`. -/
def Entry.tagsThread (t : String) (e : Entry) : Bool :=
  match e.call with
  | Call.setAppliedTags x _ => decide (x = t)
  | _ => false

/-- The reply `generateAIReply` resolves to, read off the provider's outcome. -/
def replyOf : Except JsError (List (Option String)) → Option String
  | Except.ok (choice :: _) => choice
  | _ => none

/-- The console lines `generateAIReply` writes, read off the provider's outcome. -/
def replyConsole : Except JsError (List (Option String)) → List String
  | Except.ok (_ :: _) => []
  | Except.ok [] => ["error"]
  | Except.error e =>
    if e.code = some "insufficient_quota" then ["Quota不足 → スキップ"] else ["error"]

/-! ## The transcript as the specification words it -/

/-- One transcript line: the author's username, a colon and a blank, the content. -/
def renderLine (m : Message) : String :=
  m.author.username ++ ": " ++ m.content

/-- Lines joined by single newlines, none at either end. -/
def joinLines : List String → String
  | [] => ""
  | [line] => line
  | line :: rest => line ++ "\n" ++ joinLines rest

/-- The conversation transcript of a list of messages given in chronological order:
the messages not written by a bot, in that order, one line each. -/
def transcript (chronological : List Message) : String :=
  joinLines ((chronological.filter (fun m => m.author.bot = false)).map renderLine)

/-! ## Relations between the worlds before and after a handler -/

/-- The handler only appended calls, and if every tag update it made on thread `t`
succeeded then: a thread that carried the AI-replied tag still carries it and got
no message; and in any case `t` got no message, or got one message and carries
the AI-replied tag afterwards. -/
def AnswersOnce (env : Env) (t : String) (w w1 : World) : Prop :=
  ∃ added, w1.calls = w.calls ++ added ∧
    ((∀ e ∈ added, e.tagsThread t = true → e.ok = true) →
      (env.AI_REPLIED_TAG_ID ∈ w.appliedTags t →
        env.AI_REPLIED_TAG_ID ∈ w1.appliedTags t ∧ repliesPosted t added = 0) ∧
      (repliesPosted t added = 0 ∨
        (repliesPosted t added = 1 ∧ env.AI_REPLIED_TAG_ID ∈ w1.appliedTags t)))

/-- The handler only appended calls, none of them on thread `t`, and `t` carries the
AI-replied tag afterwards. -/
def LeavesAlone (env : Env) (t : String) (w w1 : World) : Prop :=
  ∃ added, w1.calls = w.calls ++ added ∧
    (∀ e ∈ added, e.call.onThread ≠ some t) ∧
    env.AI_REPLIED_TAG_ID ∈ w1.appliedTags t

/-! ## Concrete inputs -/

/-- A configuration with three distinct identifiers. -/
def demoEnv : Env := ⟨"forum", "ai-replied", "human-replied"⟩

/-- A thread of the question channel. -/
def demoThread : Thread := ⟨"thread-1", some "forum"⟩

/-- The world before any call: no thread carries a tag. -/
def emptyWorld : World := ⟨fun _ => [], [], []⟩

/-- A question asked by a human. -/
def question : Message := ⟨⟨false, "alice"⟩, "太陽系について教えてください"⟩

/-- Wednesday, 10 o'clock. -/
def wednesdayMorning : Clock := ⟨3, 10⟩

/-- Services where every call succeeds and the provider answers `reply` as the
content of its only choice; the thread holds the single message `question`. -/
def svcReplying (reply : Option String) : Services where
  channelsFetch := fun _ => Except.ok (some ⟨"forum", ChannelType.GuildForum⟩)
  fetchActive := fun _ => Except.ok [demoThread]
  messagesFetch := fun _ => Except.ok [question]
  completionsCreate := fun _ => Except.ok [reply]
  send := fun _ => Except.ok ()
  setAppliedTags := fun _ => Except.ok ()

/-- Services like `svcReplying (some "answer")` except that every tag update is
rejected by the platform. -/
def svcTagUpdateFails : Services where
  channelsFetch := fun _ => Except.ok (some ⟨"forum", ChannelType.GuildForum⟩)
  fetchActive := fun _ => Except.ok [demoThread]
  messagesFetch := fun _ => Except.ok [question]
  completionsCreate := fun _ => Except.ok [some "answer"]
  send := fun _ => Except.ok ()
  setAppliedTags := fun _ => Except.error ⟨none⟩

/-- Services where every call to the chat platform is rejected. -/
def svcPlatformDown : Services where
  channelsFetch := fun _ => Except.error ⟨none⟩
  fetchActive := fun _ => Except.error ⟨none⟩
  messagesFetch := fun _ => Except.error ⟨none⟩
  completionsCreate := fun _ => Except.ok [some "answer"]
  send := fun _ => Except.error ⟨none⟩
  setAppliedTags := fun _ => Except.error ⟨none⟩

/-- A human message in `demoThread` that mentions the bot. -/
def mentionEvent : MessageEvent := ⟨⟨false, "alice"⟩, true, demoThread, true⟩

/-- A human message in `demoThread` that does not mention the bot. -/
def plainEvent : MessageEvent := ⟨⟨false, "bob"⟩, true, demoThread, false⟩

/-! ## Time gate -/

/-- C1: on Sunday and Saturday (day 0 or 6) `isAllowedTime` is true exactly when
`12 <= hour < 22`; on Monday to Friday (day 1..5) exactly when `7 <= hour < 22`. -/
theorem isAllowedTime_reference_policy (day hour : Nat) :
    ((day = 0 ∨ day = 6) →
      (isAllowedTime ⟨day, hour⟩ = true ↔ 12 ≤ hour ∧ hour < 22)) ∧
    ((1 ≤ day ∧ day ≤ 5) →
      (isAllowedTime ⟨day, hour⟩ = true ↔ 7 ≤ hour ∧ hour < 22)) := by
  constructor
  · intro hd
    simp [isAllowedTime, hd]
  · intro hd
    have h : ¬ (day = 0 ∨ day = 6) := by omega
    simp [isAllowedTime, h]

/-- Witness for C1: Saturday at 12 is allowed and Saturday at 11 is not; Wednesday at
7 is allowed and Wednesday at 22 is not. -/
theorem isAllowedTime_reference_policy_witness :
    isAllowedTime ⟨6, 12⟩ = true ∧ ¬ isAllowedTime ⟨6, 11⟩ = true ∧
    isAllowedTime ⟨3, 7⟩ = true ∧ ¬ isAllowedTime ⟨3, 22⟩ = true :=
  ⟨((isAllowedTime_reference_policy 6 12).1 (Or.inr rfl)).2 (by decide),
   fun h => absurd (((isAllowedTime_reference_policy 6 11).1 (Or.inr rfl)).1 h) (by decide),
   ((isAllowedTime_reference_policy 3 7).2 (by decide)).2 (by decide),
   fun h => absurd (((isAllowedTime_reference_policy 3 22).2 (by decide)).1 h) (by decide)⟩

/-! ## Running computations -/

@[simp]
theorem pure_run {α : Type} (a : α) (w : World) :
    (pure a : Async α) w = (Except.ok a, w) := rfl

/-- Running a sequence of two computations. -/
@[simp]
theorem bind_run {α β : Type} (m : Async α) (f : α → Async β) (w : World) :
    (m >>= f) w = match m w with
      | (Except.ok a, w1) => f a w1
      | (Except.error e, w1) => (Except.error e, w1) := rfl

/-- Running a `throw`. -/
@[simp]
theorem reject_run {α : Type} (e : JsError) (w : World) :
    (Async.reject e : Async α) w = (Except.error e, w) := rfl

/-- Running a `try/catch`. -/
@[simp]
theorem tryCatch_run {α : Type} (m : Async α) (h : JsError → Async α) (w : World) :
    Async.tryCatch m h w = match m w with
      | (Except.ok a, w1) => (Except.ok a, w1)
      | (Except.error e, w1) => h e w1 := rfl

/-- Running an outbound call. -/
@[simp]
theorem request_run {α : Type} (outcome : Nat → Except JsError α) (call : Call)
    (w : World) :
    request outcome call w =
      (outcome w.calls.length,
        { w with calls := w.calls ++ [⟨call, resolved (outcome w.calls.length)⟩] }) := rfl

/-- Running a console write. -/
@[simp]
theorem consoleLog_run (line : String) (w : World) :
    consoleLog line w = (Except.ok (), { w with console := w.console ++ [line] }) := rfl

/-- Running a read of `thread.appliedTags`. -/
@[simp]
theorem appliedTags_run (thread : Thread) (w : World) :
    thread.appliedTags w = (Except.ok (w.appliedTags thread.id), w) := rfl

/-- A resolution is resolved. -/
@[simp]
theorem resolved_ok {α : Type} (a : α) :
    resolved (Except.ok a : Except JsError α) = true := rfl

/-- A rejection is not resolved. -/
@[simp]
theorem resolved_error {α : Type} (e : JsError) :
    resolved (Except.error e : Except JsError α) = false := rfl

/-- A run of `generateAIReply`: it always resolves, makes exactly one completion
request carrying its text, and resolves to `replyOf` of the provider outcome. -/
@[simp]
theorem generateAIReply_run (svc : Services) (text : String) (w : World) :
    generateAIReply svc text w =
      (Except.ok (replyOf (svc.completionsCreate w.calls.length)),
        { w with
          calls := w.calls ++ [⟨completionCall text,
            resolved (svc.completionsCreate w.calls.length)⟩],
          console := w.console ++ replyConsole (svc.completionsCreate w.calls.length) }) := by
  unfold generateAIReply
  cases h : svc.completionsCreate w.calls.length with
  | error e =>
    by_cases hc : e.code = some "insufficient_quota" <;>
      simp [h, hc, replyOf, replyConsole]
  | ok res =>
    cases res <;> simp [h, replyOf, typeError, replyConsole]

/-- Case analysis of one run of `handleThread`: the six ways it can end, each with
the resulting world. -/
theorem handleThread_elim (svc : Services) (env : Env) (thread : Thread) (w : World)
    (motive : Except JsError Unit × World → Prop)
    (fetchFailed : ∀ e, svc.messagesFetch w.calls.length = Except.error e →
      motive (Except.ok (),
        { w with
          calls := w.calls ++ [⟨Call.messagesFetch thread.id 10, false⟩],
          console := w.console ++ ["handleThread error:"] }))
    (noHuman : ∀ ms, svc.messagesFetch w.calls.length = Except.ok ms →
      ms.reverse.find? (fun m => !m.author.bot) = none →
      motive (Except.ok (),
        { w with calls := w.calls ++ [⟨Call.messagesFetch thread.id 10, true⟩] }))
    (noReply : ∀ ms first, svc.messagesFetch w.calls.length = Except.ok ms →
      ms.reverse.find? (fun m => !m.author.bot) = some first →
      truthy (replyOf (svc.completionsCreate (w.calls.length + 1))) = false →
      motive (Except.ok (),
        { w with
          calls := w.calls ++ [⟨Call.messagesFetch thread.id 10, true⟩,
            ⟨completionCall first.content,
              resolved (svc.completionsCreate (w.calls.length + 1))⟩],
          console := w.console ++ ("AI回答生成: " ++ first.content) ::
            replyConsole (svc.completionsCreate (w.calls.length + 1)) }))
    (sendFailed : ∀ ms first reply e, svc.messagesFetch w.calls.length = Except.ok ms →
      ms.reverse.find? (fun m => !m.author.bot) = some first →
      replyOf (svc.completionsCreate (w.calls.length + 1)) = some reply → reply ≠ "" →
      svc.send (w.calls.length + 2) = Except.error e →
      motive (Except.ok (),
        { w with
          calls := w.calls ++ [⟨Call.messagesFetch thread.id 10, true⟩,
            ⟨completionCall first.content,
              resolved (svc.completionsCreate (w.calls.length + 1))⟩,
            ⟨Call.send thread.id reply, false⟩],
          console := w.console ++ ("AI回答生成: " ++ first.content) ::
            (replyConsole (svc.completionsCreate (w.calls.length + 1)) ++
              ["handleThread error:"]) }))
    (tagFailed : ∀ ms first reply e, svc.messagesFetch w.calls.length = Except.ok ms →
      ms.reverse.find? (fun m => !m.author.bot) = some first →
      replyOf (svc.completionsCreate (w.calls.length + 1)) = some reply → reply ≠ "" →
      svc.send (w.calls.length + 2) = Except.ok () →
      svc.setAppliedTags (w.calls.length + 3) = Except.error e →
      motive (Except.ok (),
        { w with
          calls := w.calls ++ [⟨Call.messagesFetch thread.id 10, true⟩,
            ⟨completionCall first.content,
              resolved (svc.completionsCreate (w.calls.length + 1))⟩,
            ⟨Call.send thread.id reply, true⟩,
            ⟨Call.setAppliedTags thread.id
              (w.appliedTags thread.id ++ [env.AI_REPLIED_TAG_ID]), false⟩],
          console := w.console ++ ("AI回答生成: " ++ first.content) ::
            (replyConsole (svc.completionsCreate (w.calls.length + 1)) ++
              ["handleThread error:"]) }))
    (done : ∀ ms first reply, svc.messagesFetch w.calls.length = Except.ok ms →
      ms.reverse.find? (fun m => !m.author.bot) = some first →
      replyOf (svc.completionsCreate (w.calls.length + 1)) = some reply → reply ≠ "" →
      svc.send (w.calls.length + 2) = Except.ok () →
      svc.setAppliedTags (w.calls.length + 3) = Except.ok () →
      motive (Except.ok (),
        { appliedTags := fun t =>
            if t = thread.id then w.appliedTags thread.id ++ [env.AI_REPLIED_TAG_ID]
            else w.appliedTags t,
          calls := w.calls ++ [⟨Call.messagesFetch thread.id 10, true⟩,
            ⟨completionCall first.content,
              resolved (svc.completionsCreate (w.calls.length + 1))⟩,
            ⟨Call.send thread.id reply, true⟩,
            ⟨Call.setAppliedTags thread.id
              (w.appliedTags thread.id ++ [env.AI_REPLIED_TAG_ID]), true⟩],
          console := w.console ++ ("AI回答生成: " ++ first.content) ::
            replyConsole (svc.completionsCreate (w.calls.length + 1)) })) :
    motive (handleThread svc env thread w) := by
  unfold handleThread
  cases hf : svc.messagesFetch w.calls.length with
  | error e => simpa [Thread.messagesFetch, hf] using fetchFailed e hf
  | ok ms =>
    cases hfind : ms.reverse.find? (fun m => !m.author.bot) with
    | none => simpa [Thread.messagesFetch, hf, hfind] using noHuman ms hf hfind
    | some first =>
      cases hr : replyOf (svc.completionsCreate (w.calls.length + 1)) with
      | none =>
        have h := noReply ms first hf hfind (by simp [hr, truthy])
        simpa [Thread.messagesFetch, hf, hfind, hr, truthy] using h
      | some reply =>
        by_cases hne : reply = ""
        · have h := noReply ms first hf hfind (by simp [hr, truthy, hne])
          simpa [Thread.messagesFetch, hf, hfind, hr, truthy, hne] using h
        · cases hs : svc.send (w.calls.length + 1 + 1) with
          | error e =>
            have h := sendFailed ms first reply e hf hfind hr hne hs
            simpa [Thread.messagesFetch, hf, hfind, hr, truthy, hne, Thread.send, hs,
              completionCall] using h
          | ok u =>
            cases ht : svc.setAppliedTags (w.calls.length + 1 + 1 + 1) with
            | error e =>
              have h := tagFailed ms first reply e hf hfind hr hne hs ht
              simpa [Thread.messagesFetch, hf, hfind, hr, truthy, hne, Thread.send, hs,
                Thread.setAppliedTags, ht] using h
            | ok u =>
              have h := done ms first reply hf hfind hr hne hs ht
              simpa [Thread.messagesFetch, hf, hfind, hr, truthy, hne, Thread.send, hs,
                Thread.setAppliedTags, ht] using h

/-- The promise returned by `handleThread` never rejects. -/
theorem handleThread_resolves (svc : Services) (env : Env) (thread : Thread) (w : World) :
    (handleThread svc env thread w).1 = Except.ok () := by
  apply handleThread_elim svc env thread w (fun r => r.1 = Except.ok ()) <;> intros <;> rfl

/-- The last message from a human in fetch order, as a decomposition of the
fetched list. -/
theorem find_reverse_split (ms : List Message) (first : Message)
    (h : ms.reverse.find? (fun m => !m.author.bot) = some first) :
    ∃ later earlier, ms = later ++ first :: earlier ∧ first.author.bot = false ∧
      ∀ m ∈ earlier, m.author.bot = true := by
  rw [List.find?_eq_some] at h
  obtain ⟨hp, as, bs, hsplit, hall⟩ := h
  refine ⟨bs.reverse, as.reverse, ?_, by simpa using hp, ?_⟩
  · have := congrArg List.reverse hsplit
    simpa using this
  · intro m hm
    have := hall m (by simpa using hm)
    simpa using this

/-- A list with a human message has a first human message once reversed. -/
theorem find_reverse_some (ms : List Message) (h : ∃ m ∈ ms, m.author.bot = false) :
    ∃ first, ms.reverse.find? (fun m => !m.author.bot) = some first := by
  cases hfind : ms.reverse.find? (fun m => !m.author.bot) with
  | some first => exact ⟨first, rfl⟩
  | none =>
    rw [List.find?_eq_none] at hfind
    obtain ⟨m, hm, hb⟩ := h
    have := hfind m (by simpa using hm)
    simp [hb] at this

/-- Prompts of an appended log. -/
@[simp]
theorem promptsSent_append (xs ys : List Entry) :
    promptsSent (xs ++ ys) = promptsSent xs ++ promptsSent ys := by
  simp [promptsSent]

/-- C10: when the fetched list holds a message from a human, the only text
`handleThread` hands to the completion provider is the content of the last human
message in fetch order, which is the chronologically earliest one: every message
after it in fetch order is a bot message. -/
theorem handleThread_asks_earliest_human_message (svc : Services) (env : Env)
    (thread : Thread) (w : World) (ms : List Message)
    (hfetch : svc.messagesFetch w.calls.length = Except.ok ms)
    (hhuman : ∃ m ∈ ms, m.author.bot = false) :
    ∃ later first earlier, ms = later ++ first :: earlier ∧
      first.author.bot = false ∧ (∀ m ∈ earlier, m.author.bot = true) ∧
      promptsSent (handleThread svc env thread w).2.calls =
        promptsSent w.calls ++ [first.content] := by
  obtain ⟨first, hfirst⟩ := find_reverse_some ms hhuman
  obtain ⟨later, earlier, hsplit, hbot, hall⟩ := find_reverse_split ms first hfirst
  refine ⟨later, first, earlier, hsplit, hbot, hall, ?_⟩
  apply handleThread_elim svc env thread w
    (fun r => promptsSent r.2.calls = promptsSent w.calls ++ [first.content])
  · intro e he
    simp [hfetch] at he
  · intro ms1 h1 h2
    simp only [hfetch, Except.ok.injEq] at h1
    subst h1
    simp [hfirst] at h2
  · intro ms1 first1 h1 h2 _
    have hms : ms1 = ms := by simpa [hfetch] using h1.symm
    subst hms
    have hf1 : first1 = first := by simpa [hfirst] using h2.symm
    simp [promptsSent, Call.userText, completionCall, hf1]
  · intro ms1 first1 reply e h1 h2 _ _ _
    have hms : ms1 = ms := by simpa [hfetch] using h1.symm
    subst hms
    have hf1 : first1 = first := by simpa [hfirst] using h2.symm
    simp [promptsSent, Call.userText, completionCall, hf1]
  · intro ms1 first1 reply e h1 h2 _ _ _ _
    have hms : ms1 = ms := by simpa [hfetch] using h1.symm
    subst hms
    have hf1 : first1 = first := by simpa [hfirst] using h2.symm
    simp [promptsSent, Call.userText, completionCall, hf1]
  · intro ms1 first1 reply h1 h2 _ _ _ _
    have hms : ms1 = ms := by simpa [hfetch] using h1.symm
    subst hms
    have hf1 : first1 = first := by simpa [hfirst] using h2.symm
    simp [promptsSent, Call.userText, completionCall, hf1]

/-- What `generateAIReply` resolves to at a position determines `replyOf` there. -/
theorem replyOf_of_generateAIReply (svc : Services) (n : Nat) (reply : Option String)
    (h : ∀ text w1, w1.calls.length = n →
      (generateAIReply svc text w1).1 = Except.ok reply) :
    replyOf (svc.completionsCreate n) = reply := by
  have := h "" ⟨fun _ => [], List.replicate n ⟨Call.fetchActive "", true⟩, []⟩ (by simp)
  simpa using this

/-- C9: if every fetched message is bot-authored (or none was fetched), or if
`generateAIReply` returns null at that point of the run, `handleThread` makes no
`thread.send` and no `thread.setAppliedTags` call and leaves every tag set as it
was. -/
theorem handleThread_untouched (svc : Services) (env : Env) (thread : Thread) (w : World)
    (h : (∃ ms, svc.messagesFetch w.calls.length = Except.ok ms ∧
            ∀ m ∈ ms, m.author.bot = true) ∨
         (∀ text w1, w1.calls.length = w.calls.length + 1 →
            (generateAIReply svc text w1).1 = Except.ok none)) :
    (handleThread svc env thread w).2.appliedTags = w.appliedTags ∧
    ∃ added, (handleThread svc env thread w).2.calls = w.calls ++ added ∧
      ∀ e ∈ added, e.call.isSend = false ∧ e.call.isSetAppliedTags = false := by
  have key : (∀ ms first, svc.messagesFetch w.calls.length = Except.ok ms →
      ms.reverse.find? (fun m => !m.author.bot) = some first →
      ∀ reply, replyOf (svc.completionsCreate (w.calls.length + 1)) = some reply →
        False) := by
    intro ms first hf hfind reply hr
    rcases h with ⟨ms1, hf1, hall⟩ | hnull
    · have hms : ms1 = ms := by simpa [hf] using hf1.symm
      subst hms
      obtain ⟨_, _, hsplit, hbot, -⟩ := find_reverse_split ms1 first hfind
      have := hall first (by simp [hsplit])
      simp [hbot] at this
    · have := replyOf_of_generateAIReply svc _ none hnull
      simp [hr] at this
  apply handleThread_elim svc env thread w
    (fun r => r.2.appliedTags = w.appliedTags ∧
      ∃ added, r.2.calls = w.calls ++ added ∧
        ∀ e ∈ added, e.call.isSend = false ∧ e.call.isSetAppliedTags = false)
  · intro e _
    exact ⟨rfl, _, rfl, by simp [Call.isSend, Call.isSetAppliedTags]⟩
  · intro ms _ _
    exact ⟨rfl, _, rfl, by simp [Call.isSend, Call.isSetAppliedTags]⟩
  · intro ms first _ _ _
    exact ⟨rfl, _, rfl, by simp [Call.isSend, Call.isSetAppliedTags, completionCall]⟩
  · intro ms first reply e hf hfind hr _ _
    exact (key ms first hf hfind reply hr).elim
  · intro ms first reply e hf hfind hr _ _ _
    exact (key ms first hf hfind reply hr).elim
  · intro ms first reply hf hfind hr _ _ _
    exact (key ms first hf hfind reply hr).elim

/-- C3 (amended): when the fetched messages hold a human message, `generateAIReply`
produces the non-empty text `reply` and the platform calls succeed, `handleThread`
makes exactly four calls: the fetch, the completion request, one `thread.send`
with exactly `reply`, then one `thread.setAppliedTags` with the thread's existing
tags followed by the AI-replied tag, which become the thread's tags. -/
theorem handleThread_posts_reply_then_tags (svc : Services) (env : Env) (thread : Thread)
    (w : World) (ms : List Message) (reply : String)
    (hfetch : svc.messagesFetch w.calls.length = Except.ok ms)
    (hhuman : ∃ m ∈ ms, m.author.bot = false)
    (hreply : ∀ text w1, w1.calls.length = w.calls.length + 1 →
      (generateAIReply svc text w1).1 = Except.ok (some reply))
    (hne : reply ≠ "")
    (hsend : svc.send (w.calls.length + 2) = Except.ok ())
    (htags : svc.setAppliedTags (w.calls.length + 3) = Except.ok ()) :
    (∃ text,
      (handleThread svc env thread w).2.calls = w.calls ++
        [⟨Call.messagesFetch thread.id 10, true⟩,
         ⟨completionCall text, true⟩,
         ⟨Call.send thread.id reply, true⟩,
         ⟨Call.setAppliedTags thread.id
            (w.appliedTags thread.id ++ [env.AI_REPLIED_TAG_ID]), true⟩]) ∧
    (handleThread svc env thread w).2.appliedTags thread.id =
      w.appliedTags thread.id ++ [env.AI_REPLIED_TAG_ID] := by
  have hr := replyOf_of_generateAIReply svc _ (some reply) hreply
  have hres : resolved (svc.completionsCreate (w.calls.length + 1)) = true := by
    cases hc : svc.completionsCreate (w.calls.length + 1) with
    | error e => simp [hc, replyOf] at hr
    | ok res => rfl
  obtain ⟨first, hfirst⟩ := find_reverse_some ms hhuman
  apply handleThread_elim svc env thread w
    (fun r => (∃ text, r.2.calls = w.calls ++
        [Entry.mk (Call.messagesFetch thread.id 10) true,
         Entry.mk (completionCall text) true,
         Entry.mk (Call.send thread.id reply) true,
         Entry.mk (Call.setAppliedTags thread.id
            (w.appliedTags thread.id ++ [env.AI_REPLIED_TAG_ID])) true]) ∧
      r.2.appliedTags thread.id = w.appliedTags thread.id ++ [env.AI_REPLIED_TAG_ID])
  · intro e he
    simp [hfetch] at he
  · intro ms1 h1 h2
    have hms : ms1 = ms := by simpa [hfetch] using h1.symm
    subst hms
    simp [hfirst] at h2
  · intro ms1 first1 _ _ h3
    simp [hr, truthy, hne] at h3
  · intro ms1 first1 reply1 e _ _ _ _ h5
    simp [hsend] at h5
  · intro ms1 first1 reply1 e _ _ _ _ _ h6
    simp [htags] at h6
  · intro ms1 first1 reply1 _ _ h3 _ _ _
    have hrr : reply1 = reply := by simpa [hr] using h3.symm
    subst hrr
    exact ⟨⟨first1.content, by simp [hres]⟩, by simp⟩

/-- C3 (as stated) fails for the empty reply: the thread holds a human message,
every call succeeds and `generateAIReply` resolves to the non-null text `""`, yet
`handleThread` stops after the completion request: no `thread.send`, no
`thread.setAppliedTags`. -/
theorem handleThread_empty_reply_not_sent :
    (∃ m ∈ [question], m.author.bot = false) ∧
    (generateAIReply (svcReplying (some "")) question.content
      { emptyWorld with calls := [⟨Call.messagesFetch "thread-1" 10, true⟩] }).1 =
      Except.ok (some "") ∧
    (handleThread (svcReplying (some "")) demoEnv demoThread emptyWorld).2.calls =
      [⟨Call.messagesFetch "thread-1" 10, true⟩,
       ⟨completionCall "太陽系について教えてください", true⟩] :=
  ⟨⟨question, by simp, rfl⟩, rfl, rfl⟩

/-- Witness for C9: a thread whose only message is from a bot is left untouched. -/
theorem handleThread_untouched_witness :
    (∀ m ∈ [(⟨⟨true, "bot"⟩, "hello"⟩ : Message)], m.author.bot = true) ∧
    (handleThread
        { svcReplying (some "answer") with
          messagesFetch := fun _ => Except.ok [⟨⟨true, "bot"⟩, "hello"⟩] }
        demoEnv demoThread emptyWorld).2.appliedTags = emptyWorld.appliedTags :=
  ⟨by simp,
   (handleThread_untouched
      { svcReplying (some "answer") with
        messagesFetch := fun _ => Except.ok [⟨⟨true, "bot"⟩, "hello"⟩] }
      demoEnv demoThread emptyWorld
      (Or.inl ⟨[⟨⟨true, "bot"⟩, "hello"⟩], rfl, by simp⟩)).1⟩

/-- Witness for C3 (amended): the reply `"answer"` is posted and the thread tagged. -/
theorem handleThread_posts_reply_then_tags_witness :
    (handleThread (svcReplying (some "answer")) demoEnv demoThread emptyWorld).2.appliedTags
      "thread-1" = [] ++ ["ai-replied"] :=
  (handleThread_posts_reply_then_tags (svcReplying (some "answer")) demoEnv demoThread
    emptyWorld [question] "answer" rfl ⟨question, by simp, rfl⟩
    (fun _ _ _ => by simp [svcReplying, replyOf]) (by decide) rfl rfl).2

/-- Witness for C10: a human question fetched between two bot messages is the text
sent to the provider. -/
theorem handleThread_asks_earliest_human_message_witness :
    ∃ later first earlier, [⟨⟨true, "bot"⟩, "hi"⟩, question, ⟨⟨true, "bot"⟩, "hello"⟩] =
        later ++ first :: earlier ∧
      first.author.bot = false ∧ (∀ m ∈ earlier, m.author.bot = true) ∧
      promptsSent (handleThread
        { svcReplying none with
          messagesFetch := fun _ =>
            Except.ok [⟨⟨true, "bot"⟩, "hi"⟩, question, ⟨⟨true, "bot"⟩, "hello"⟩] }
        demoEnv demoThread emptyWorld).2.calls =
        promptsSent emptyWorld.calls ++ [first.content] :=
  handleThread_asks_earliest_human_message _ demoEnv demoThread emptyWorld
    [⟨⟨true, "bot"⟩, "hi"⟩, question, ⟨⟨true, "bot"⟩, "hello"⟩] rfl
    ⟨question, by simp, rfl⟩

/-! ## The gates in front of `handleThread` -/

@[simp]
theorem ite_run {α : Type} (c : Prop) [Decidable c] (m n : Async α) (w : World) :
    (if c then m else n) w = if c then m w else n w := by
  split <;> rfl

/-- Membership test `includes` on tag lists. -/
@[simp]
theorem contains_tag (tags : List String) (tag : String) :
    tags.contains tag = true ↔ tag ∈ tags := by
  simp [List.contains]

/-- A run of `handleThread` resolves, as an equation on the whole result. -/
theorem handleThread_run (svc : Services) (env : Env) (thread : Thread) (w : World) :
    handleThread svc env thread w = (Except.ok (), (handleThread svc env thread w).2) := by
  have h := handleThread_resolves svc env thread w
  generalize handleThread svc env thread w = r at h
  obtain ⟨r1, r2⟩ := r
  simp only at h
  rw [h]

/-- The `threadCreate` handler as a guarded call of `handleThread`. -/
theorem onThreadCreate_run (svc : Services) (env : Env) (now : Clock) (thread : Thread)
    (w : World) :
    onThreadCreate svc env now thread w =
      if isAllowedTime now = true ∧ thread.parentId = some env.QUESTION_CHANNEL_ID ∧
          env.AI_REPLIED_TAG_ID ∉ w.appliedTags thread.id
      then handleThread svc env thread w else (Except.ok (), w) := by
  unfold onThreadCreate
  by_cases h1 : isAllowedTime now = true
  · by_cases h2 : thread.parentId = some env.QUESTION_CHANNEL_ID
    · by_cases h3 : env.AI_REPLIED_TAG_ID ∈ w.appliedTags thread.id
      · simp [h1, h2, h3]
      · rw [handleThread_run svc env thread w]
        simp [h1, h2, h3]
        rw [handleThread_run svc env thread w]
    · simp [h1, h2]
  · simp [h1]

/-- One iteration of the scan loop. -/
theorem scanLoop_cons (svc : Services) (env : Env) (thread : Thread) (rest : List Thread)
    (w : World) :
    scanLoop svc env (thread :: rest) w =
      if env.AI_REPLIED_TAG_ID ∈ w.appliedTags thread.id then scanLoop svc env rest w
      else scanLoop svc env rest (handleThread svc env thread w).2 := by
  rw [scanLoop]
  by_cases h3 : env.AI_REPLIED_TAG_ID ∈ w.appliedTags thread.id
  · simp [h3]
  · simp [h3]
    rw [handleThread_run svc env thread w]

/-- C5: the `threadCreate` handler has no effect at all (no call, hence no send and
no tag update, and no `handleThread`) unless the time gate passes, the thread's
parent is the configured question channel and the thread lacks the AI-replied
tag; when all three hold it does exactly what `handleThread` does. -/
theorem onThreadCreate_gating (svc : Services) (env : Env) (now : Clock) (thread : Thread)
    (w : World) :
    (¬ (isAllowedTime now = true ∧ thread.parentId = some env.QUESTION_CHANNEL_ID ∧
          env.AI_REPLIED_TAG_ID ∉ w.appliedTags thread.id) →
      onThreadCreate svc env now thread w = (Except.ok (), w)) ∧
    ((isAllowedTime now = true ∧ thread.parentId = some env.QUESTION_CHANNEL_ID ∧
          env.AI_REPLIED_TAG_ID ∉ w.appliedTags thread.id) →
      onThreadCreate svc env now thread w = handleThread svc env thread w) := by
  constructor
  · intro h
    rw [onThreadCreate_run, if_neg h]
  · intro h
    rw [onThreadCreate_run, if_pos h]

/-- Witness for C5: a thread created at 23:00 on a Wednesday changes nothing, whatever
the services would answer. -/
theorem onThreadCreate_gating_witness :
    onThreadCreate (svcReplying (some "answer")) demoEnv ⟨3, 23⟩ demoThread emptyWorld =
      (Except.ok (), emptyWorld) :=
  (onThreadCreate_gating (svcReplying (some "answer")) demoEnv ⟨3, 23⟩ demoThread
    emptyWorld).1 (fun h => absurd h.1 (by decide))

/-! ## What one run of `handleThread` can change -/

@[simp]
theorem repliesPosted_nil (t : String) : repliesPosted t [] = 0 := rfl

/-- Posted messages are counted additively over an appended log. -/
theorem repliesPosted_append (t : String) (xs ys : List Entry) :
    repliesPosted t (xs ++ ys) = repliesPosted t xs + repliesPosted t ys := by
  simp [repliesPosted]

/-- Calls that are all on thread `th` post nothing into another thread. -/
theorem repliesPosted_other (t th : String) (added : List Entry)
    (hattr : ∀ e ∈ added, ∀ x, e.call.onThread = some x → x = th) (hne : t ≠ th) :
    repliesPosted t added = 0 := by
  simp only [repliesPosted, List.length_eq_zero, List.filter_eq_nil_iff]
  intro e he hposted
  cases hc : e.call with
  | send x text =>
    have hx := hattr e he x (by simp [hc, Call.onThread])
    simp [Entry.postedTo, hc, hx] at hposted
    exact hne hposted.2.symm
  | _ => simp [Entry.postedTo, hc] at hposted

/-- Every call of `handleThread` is on its own thread or on the provider, tags are
never removed, and when its tag update did not fail the thread got no message or
got one and carries the AI-replied tag. -/
theorem handleThread_frame (svc : Services) (env : Env) (thread : Thread) (w : World) :
    ∃ added, (handleThread svc env thread w).2.calls = w.calls ++ added ∧
      (∀ e ∈ added, ∀ x, e.call.onThread = some x → x = thread.id) ∧
      (∀ x tag, tag ∈ w.appliedTags x →
        tag ∈ (handleThread svc env thread w).2.appliedTags x) ∧
      ((∀ e ∈ added, e.tagsThread thread.id = true → e.ok = true) →
        repliesPosted thread.id added = 0 ∨
          (repliesPosted thread.id added = 1 ∧
            env.AI_REPLIED_TAG_ID ∈
              (handleThread svc env thread w).2.appliedTags thread.id)) := by
  apply handleThread_elim svc env thread w
    (fun r => ∃ added, r.2.calls = w.calls ++ added ∧
      (∀ e ∈ added, ∀ x, e.call.onThread = some x → x = thread.id) ∧
      (∀ x tag, tag ∈ w.appliedTags x → tag ∈ r.2.appliedTags x) ∧
      ((∀ e ∈ added, e.tagsThread thread.id = true → e.ok = true) →
        repliesPosted thread.id added = 0 ∨
          (repliesPosted thread.id added = 1 ∧
            env.AI_REPLIED_TAG_ID ∈ r.2.appliedTags thread.id)))
  · intro e _
    refine ⟨_, rfl, ?_, fun _ _ h => h, fun _ => Or.inl ?_⟩
    · simp [Call.onThread]
    · simp [repliesPosted, Entry.postedTo]
  · intro ms _ _
    refine ⟨_, rfl, ?_, fun _ _ h => h, fun _ => Or.inl ?_⟩
    · simp [Call.onThread]
    · simp [repliesPosted, Entry.postedTo]
  · intro ms first _ _ _
    refine ⟨_, rfl, ?_, fun _ _ h => h, fun _ => Or.inl ?_⟩
    · simp [Call.onThread, completionCall]
    · simp [repliesPosted, Entry.postedTo, completionCall]
  · intro ms first reply e _ _ _ _ _
    refine ⟨_, rfl, ?_, fun _ _ h => h, fun _ => Or.inl ?_⟩
    · simp [Call.onThread, completionCall]
    · simp [repliesPosted, Entry.postedTo, completionCall]
  · intro ms first reply e _ _ _ _ _ _
    refine ⟨_, rfl, ?_, fun _ _ h => h, fun hok => ?_⟩
    · simp [Call.onThread, completionCall]
    · have := hok ⟨Call.setAppliedTags thread.id
        (w.appliedTags thread.id ++ [env.AI_REPLIED_TAG_ID]), false⟩ (by simp)
        (by simp [Entry.tagsThread])
      simp at this
  · intro ms first reply _ _ _ _ _ _
    refine ⟨_, rfl, ?_, ?_, fun _ => Or.inr ⟨?_, ?_⟩⟩
    · simp [Call.onThread, completionCall]
    · intro x tag h
      by_cases hx : x = thread.id
      · subst hx
        simp [h]
      · simp [hx, h]
    · simp [repliesPosted, Entry.postedTo, completionCall, List.filter]
    · simp

/-! ## Composition of handlers -/

theorem answersOnce_refl (env : Env) (t : String) (w : World) : AnswersOnce env t w w :=
  ⟨[], by simp, fun _ => ⟨fun h => ⟨h, rfl⟩, Or.inl rfl⟩⟩

/-- Two handlers run one after the other. -/
theorem answersOnce_trans {env : Env} {t : String} {w w1 w2 : World}
    (h1 : AnswersOnce env t w w1) (h2 : AnswersOnce env t w1 w2) :
    AnswersOnce env t w w2 := by
  obtain ⟨a1, hc1, hp1⟩ := h1
  obtain ⟨a2, hc2, hp2⟩ := h2
  refine ⟨a1 ++ a2, by rw [hc2, hc1, List.append_assoc], fun hok => ?_⟩
  have p1 := hp1 (fun e he => hok e (List.mem_append_left _ he))
  have p2 := hp2 (fun e he => hok e (List.mem_append_right _ he))
  rw [repliesPosted_append]
  constructor
  · intro hw
    obtain ⟨hw1, hr1⟩ := p1.1 hw
    obtain ⟨hw2, hr2⟩ := p2.1 hw1
    exact ⟨hw2, by omega⟩
  · rcases p1.2 with hr1 | ⟨hr1, hw1⟩
    · rcases p2.2 with hr2 | ⟨hr2, hw2⟩
      · exact Or.inl (by omega)
      · exact Or.inr ⟨by omega, hw2⟩
    · obtain ⟨hw2, hr2⟩ := p2.1 hw1
      exact Or.inr ⟨by omega, hw2⟩

/-- A run of `handleThread` on a thread that lacked the AI-replied tag. -/
theorem handleThread_answersOnce (svc : Services) (env : Env) (thread : Thread) (t : String)
    (w : World) (hguard : env.AI_REPLIED_TAG_ID ∉ w.appliedTags thread.id) :
    AnswersOnce env t w (handleThread svc env thread w).2 := by
  obtain ⟨added, hcalls, hattr, hmono, hcount⟩ := handleThread_frame svc env thread w
  refine ⟨added, hcalls, fun hok => ?_⟩
  by_cases ht : t = thread.id
  · subst ht
    exact ⟨fun hw => (hguard hw).elim, hcount hok⟩
  · have h0 := repliesPosted_other t thread.id added hattr ht
    exact ⟨fun hw => ⟨hmono t _ hw, h0⟩, Or.inl h0⟩

/-- The scan loop over any list of threads. -/
theorem scanLoop_answersOnce (svc : Services) (env : Env) (t : String)
    (threads : List Thread) (w : World) :
    AnswersOnce env t w (scanLoop svc env threads w).2 := by
  induction threads generalizing w with
  | nil => exact answersOnce_refl env t w
  | cons thread rest ih =>
    rw [scanLoop_cons]
    by_cases h3 : env.AI_REPLIED_TAG_ID ∈ w.appliedTags thread.id
    · rw [if_pos h3]
      exact ih w
    · rw [if_neg h3]
      exact answersOnce_trans (handleThread_answersOnce svc env thread t w h3) (ih _)

/-- The scan loop never rejects. -/
theorem scanLoop_resolves (svc : Services) (env : Env) (threads : List Thread) (w : World) :
    (scanLoop svc env threads w).1 = Except.ok () := by
  induction threads generalizing w with
  | nil => rfl
  | cons thread rest ih =>
    rw [scanLoop_cons]
    split
    · exact ih w
    · exact ih _

/-- A run of the scan loop resolves, as an equation on the whole result. -/
theorem scanLoop_run (svc : Services) (env : Env) (threads : List Thread) (w : World) :
    scanLoop svc env threads w = (Except.ok (), (scanLoop svc env threads w).2) := by
  have h := scanLoop_resolves svc env threads w
  generalize scanLoop svc env threads w = r at h
  obtain ⟨r1, r2⟩ := r
  simp only at h
  rw [h]

/-- Any relation between worlds that is transitive, holds across steps that touch
neither tags nor threads, and holds across the scan loop, holds across the whole
`clientReady` handler. -/
theorem onClientReady_lift (svc : Services) (env : Env) (R : World → World → Prop)
    (htrans : ∀ w w1 w2, R w w1 → R w1 w2 → R w w2)
    (hquiet : ∀ w w1 : World, w1.appliedTags = w.appliedTags →
      (∃ added, w1.calls = w.calls ++ added ∧ ∀ e ∈ added, e.call.onThread = none) →
      R w w1)
    (hloop : ∀ threads w, R w (scanLoop svc env threads w).2)
    (now : Clock) (w : World) :
    R w (onClientReady svc env now w).2 := by
  unfold onClientReady scanUnansweredThreads
  by_cases h1 : isAllowedTime now = true
  · cases hc : svc.channelsFetch w.calls.length with
    | error e =>
      simp only [bind_run, consoleLog_run, tryCatch_run, h1, Bool.not_true,
        Bool.false_eq_true, if_false, ite_run, request_run, hc]
      exact hquiet _ _ rfl ⟨_, rfl, by simp [Call.onThread]⟩
    | ok fetched =>
      cases fetched with
      | none =>
        simp only [bind_run, consoleLog_run, tryCatch_run, h1, Bool.not_true,
          Bool.false_eq_true, if_false, ite_run, request_run, hc, reject_run]
        exact hquiet _ _ rfl ⟨_, rfl, by simp [Call.onThread]⟩
      | some channel =>
        by_cases h2 : channel.type = ChannelType.GuildForum
        · cases hf : svc.fetchActive (w.calls.length + 1) with
          | error e =>
            simp only [bind_run, consoleLog_run, tryCatch_run, h1, Bool.not_true,
              Bool.false_eq_true, if_false, ite_run, request_run, hc, h2, ne_eq,
              not_true_eq_false, List.length_append, List.length_singleton, hf]
            exact hquiet _ _ rfl
              ⟨[⟨Call.channelsFetch env.QUESTION_CHANNEL_ID, true⟩,
                ⟨Call.fetchActive channel.id, false⟩], by simp, by simp [Call.onThread]⟩
          | ok threads =>
            simp only [bind_run, consoleLog_run, tryCatch_run, h1, Bool.not_true,
              Bool.false_eq_true, if_false, ite_run, request_run, hc, h2, ne_eq,
              not_true_eq_false, List.length_append, List.length_singleton, hf]
            rw [scanLoop_run]
            simp only
            exact htrans w
              { w with
                calls := w.calls ++ [⟨Call.channelsFetch env.QUESTION_CHANNEL_ID, true⟩] ++
                  [⟨Call.fetchActive channel.id, true⟩],
                console := w.console ++ ["Logged in"] } _
              (hquiet w _ rfl
                ⟨[⟨Call.channelsFetch env.QUESTION_CHANNEL_ID, true⟩,
                  ⟨Call.fetchActive channel.id, true⟩], by simp, by simp [Call.onThread]⟩)
              (hloop threads _)
        · simp only [bind_run, consoleLog_run, tryCatch_run, h1, Bool.not_true,
            Bool.false_eq_true, if_false, ite_run, request_run, hc, h2, ne_eq,
            not_false_eq_true, if_true, pure_run]
          exact hquiet _ _ rfl ⟨_, rfl, by simp [Call.onThread]⟩
  · simp only [bind_run, consoleLog_run, tryCatch_run, h1, Bool.not_false,
      if_true, ite_run, pure_run, Bool.not_eq_true] 
    exact hquiet _ _ rfl ⟨[], by simp, by simp⟩

/-- Calls that are on no thread post nothing. -/
theorem repliesPosted_quiet (t : String) (added : List Entry)
    (hnone : ∀ e ∈ added, e.call.onThread = none) : repliesPosted t added = 0 := by
  simp only [repliesPosted, List.length_eq_zero, List.filter_eq_nil_iff]
  intro e he hposted
  have hn := hnone e he
  cases hc : e.call with
  | send x text => simp [hc, Call.onThread] at hn
  | _ => simp [Entry.postedTo, hc] at hposted

/-- A step that touches neither tags nor threads. -/
theorem answersOnce_of_quiet (env : Env) (t : String) (w w1 : World)
    (htags : w1.appliedTags = w.appliedTags)
    (hcalls : ∃ added, w1.calls = w.calls ++ added ∧ ∀ e ∈ added, e.call.onThread = none) :
    AnswersOnce env t w w1 := by
  obtain ⟨added, hc, hnone⟩ := hcalls
  have h0 := repliesPosted_quiet t added hnone
  exact ⟨added, hc, fun _ => ⟨fun hw => ⟨by rw [htags]; exact hw, h0⟩, Or.inl h0⟩⟩

/-- Every event handler answers a thread at most once. -/
theorem dispatch_answersOnce (svc : Services) (env : Env) (t : String) (event : Event)
    (w : World) : AnswersOnce env t w (dispatch svc env event w).2 := by
  cases event with
  | clientReady now =>
    exact onClientReady_lift svc env (AnswersOnce env t) (fun _ _ _ h1 h2 => answersOnce_trans h1 h2)
      (answersOnce_of_quiet env t) (scanLoop_answersOnce svc env t) now w
  | threadCreate now thread =>
    simp only [dispatch]
    rw [onThreadCreate_run]
    split
    · rename_i h
      exact handleThread_answersOnce svc env thread t w h.2.2
    · exact answersOnce_refl env t w

/-- Every sequence of events answers a thread at most once. -/
theorem runEvents_answersOnce (svc : Services) (env : Env) (t : String)
    (events : List Event) (w : World) :
    AnswersOnce env t w (runEvents svc env events w) := by
  induction events generalizing w with
  | nil => exact answersOnce_refl env t w
  | cons event rest ih =>
    exact answersOnce_trans (dispatch_answersOnce svc env t event w) (ih _)

/-! ## At most one first answer -/

/-- C2 (amended): for every thread and every sequence of `clientReady` and
`threadCreate` events handled one after another, whatever the outcomes of the
other calls, if no tag update made on that thread during the sequence was
rejected then at most one message was posted into the thread. -/
theorem at_most_one_first_answer (svc : Services) (env : Env) (t : String)
    (events : List Event) (w : World)
    (htags : ∀ e ∈ (runEvents svc env events w).calls.drop w.calls.length,
      e.tagsThread t = true → e.ok = true) :
    repliesPosted t ((runEvents svc env events w).calls.drop w.calls.length) ≤ 1 := by
  obtain ⟨added, hcalls, hprop⟩ := runEvents_answersOnce svc env t events w
  rw [hcalls, List.drop_left] at htags ⊢
  rcases (hprop htags).2 with h | ⟨h, -⟩ <;> omega

/-- C2 (as stated) fails when the tag update is rejected: a thread is created and
answered, the rejected `setAppliedTags` leaves it untagged, and the next startup
scan answers it a second time. -/
theorem second_answer_after_failed_tag_update :
    repliesPosted "thread-1"
      (runEvents svcTagUpdateFails demoEnv
        [Event.threadCreate wednesdayMorning demoThread, Event.clientReady wednesdayMorning]
        emptyWorld).calls = 2 := by
  rfl

/-- Witness for C2 (amended): with tag updates that succeed, a thread creation
followed by a startup scan posts at most one message. -/
theorem at_most_one_first_answer_witness :
    repliesPosted "thread-1"
      ((runEvents (svcReplying (some "answer")) demoEnv
        [Event.threadCreate wednesdayMorning demoThread, Event.clientReady wednesdayMorning]
        emptyWorld).calls.drop emptyWorld.calls.length) ≤ 1 :=
  at_most_one_first_answer (svcReplying (some "answer")) demoEnv "thread-1"
    [Event.threadCreate wednesdayMorning demoThread, Event.clientReady wednesdayMorning]
    emptyWorld (by decide)

/-! ## Threads that already carry the AI-replied tag -/

/-- The first call of `handleThread` is always the fetch of its thread's messages, so
a run of `handleThread` on a thread is visible in the call log. -/
theorem handleThread_first_call (svc : Services) (env : Env) (thread : Thread) (w : World) :
    ∃ ok rest, (handleThread svc env thread w).2.calls =
      w.calls ++ ⟨Call.messagesFetch thread.id 10, ok⟩ :: rest := by
  apply handleThread_elim svc env thread w
    (fun r => ∃ ok rest, r.2.calls = w.calls ++ Entry.mk (Call.messagesFetch thread.id 10) ok :: rest)
  all_goals
    intros
    exact ⟨_, _, rfl⟩

/-- Two handlers that leave the thread alone, run one after the other. -/
theorem leavesAlone_trans {env : Env} {t : String} {w w1 w2 : World}
    (h1 : LeavesAlone env t w w1) (h2 : LeavesAlone env t w1 w2) :
    LeavesAlone env t w w2 := by
  obtain ⟨a1, hc1, hp1, -⟩ := h1
  obtain ⟨a2, hc2, hp2, htag⟩ := h2
  refine ⟨a1 ++ a2, by rw [hc2, hc1, List.append_assoc], ?_, htag⟩
  intro e he
  rcases List.mem_append.mp he with h | h
  · exact hp1 e h
  · exact hp2 e h

/-- The scan loop makes no call on a thread that carries the AI-replied tag. -/
theorem scanLoop_leavesAlone (svc : Services) (env : Env) (t : String)
    (threads : List Thread) (w : World) (htag : env.AI_REPLIED_TAG_ID ∈ w.appliedTags t) :
    LeavesAlone env t w (scanLoop svc env threads w).2 := by
  induction threads generalizing w with
  | nil => exact ⟨[], by simp [scanLoop], by simp, htag⟩
  | cons thread rest ih =>
    rw [scanLoop_cons]
    by_cases h3 : env.AI_REPLIED_TAG_ID ∈ w.appliedTags thread.id
    · rw [if_pos h3]
      exact ih w htag
    · rw [if_neg h3]
      have hne : thread.id ≠ t := fun h => h3 (h ▸ htag)
      obtain ⟨added, hcalls, hattr, hmono, -⟩ := handleThread_frame svc env thread w
      have hstep : LeavesAlone env t w (handleThread svc env thread w).2 :=
        ⟨added, hcalls, fun e he h => hne (hattr e he t h).symm, hmono t _ htag⟩
      exact leavesAlone_trans hstep (ih _ (hmono t _ htag))

/-- C6: for a thread that already carries the AI-replied tag, the `threadCreate`
handler does nothing at all, and neither the scan loop (over any list of threads)
nor the whole `clientReady` handler makes a single call on that thread; since
`handleThread` always starts by fetching its thread's messages, it was not run for
that thread. -/
theorem answered_thread_never_handled (svc : Services) (env : Env) (t : String) (w : World)
    (htag : env.AI_REPLIED_TAG_ID ∈ w.appliedTags t) :
    (∀ now thread, thread.id = t →
      onThreadCreate svc env now thread w = (Except.ok (), w)) ∧
    (∀ threads, ∃ added, (scanLoop svc env threads w).2.calls = w.calls ++ added ∧
      ∀ e ∈ added, e.call.onThread ≠ some t) ∧
    (∀ now, ∃ added, (onClientReady svc env now w).2.calls = w.calls ++ added ∧
      ∀ e ∈ added, e.call.onThread ≠ some t) := by
  refine ⟨?_, ?_, ?_⟩
  · intro now thread hid
    subst hid
    rw [onThreadCreate_run, if_neg (by simp [htag])]
  · intro threads
    obtain ⟨added, hcalls, hnone, -⟩ := scanLoop_leavesAlone svc env t threads w htag
    exact ⟨added, hcalls, hnone⟩
  · intro now
    have h := onClientReady_lift svc env
      (fun w w1 => env.AI_REPLIED_TAG_ID ∈ w.appliedTags t → LeavesAlone env t w w1)
      (fun w w1 w2 h1 h2 hw => by
        have h := h1 hw
        obtain ⟨_, _, _, hw1⟩ := h
        exact leavesAlone_trans (h1 hw) (h2 hw1))
      (fun w w1 htags hcalls hw => by
        obtain ⟨added, hc, hnone⟩ := hcalls
        exact ⟨added, hc, fun e he => by simp [hnone e he], by rw [htags]; exact hw⟩)
      (fun threads w hw => scanLoop_leavesAlone svc env t threads w hw) now w htag
    obtain ⟨added, hcalls, hnone, -⟩ := h
    exact ⟨added, hcalls, hnone⟩

/-- Witness for C6: a world where every thread carries the AI-replied tag. -/
theorem answered_thread_never_handled_witness :
    (∀ now thread, thread.id = "thread-1" →
      onThreadCreate (svcReplying (some "answer")) demoEnv now thread
        { emptyWorld with appliedTags := fun _ => ["ai-replied"] } =
        (Except.ok (), { emptyWorld with appliedTags := fun _ => ["ai-replied"] })) ∧
    (∀ threads, ∃ added,
      (scanLoop (svcReplying (some "answer")) demoEnv threads
        { emptyWorld with appliedTags := fun _ => ["ai-replied"] }).2.calls =
        ({ emptyWorld with appliedTags := fun _ => ["ai-replied"] } : World).calls ++ added ∧
      ∀ e ∈ added, e.call.onThread ≠ some "thread-1") ∧
    (∀ now, ∃ added,
      (onClientReady (svcReplying (some "answer")) demoEnv now
        { emptyWorld with appliedTags := fun _ => ["ai-replied"] }).2.calls =
        ({ emptyWorld with appliedTags := fun _ => ["ai-replied"] } : World).calls ++ added ∧
      ∀ e ∈ added, e.call.onThread ≠ some "thread-1") :=
  answered_thread_never_handled (svcReplying (some "answer")) demoEnv "thread-1"
    { emptyWorld with appliedTags := fun _ => ["ai-replied"] } (by simp [demoEnv])

/-! ## The `messageCreate` handler -/

/-- C7: at any time of day, a human message without mention in a thread lacking the
Human-replied tag causes exactly one call, a `setAppliedTags` with the existing
tags followed by the Human-replied tag; once that update has succeeded, a further
human message without mention in the same thread causes no call at all. -/
theorem human_reply_tag_idempotent (svc : Services) (env : Env) (now : Clock)
    (message : MessageEvent) (w : World)
    (hhuman : message.author.bot = false) (hthread : message.channelIsThread = true)
    (hplain : message.mentionsClientUser = false)
    (hlack : env.HUMAN_REPLIED_TAG_ID ∉ w.appliedTags message.channel.id) :
    (onMessageCreate svc env now message w).2.calls = w.calls ++
      [⟨Call.setAppliedTags message.channel.id
          (w.appliedTags message.channel.id ++ [env.HUMAN_REPLIED_TAG_ID]),
        resolved (svc.setAppliedTags w.calls.length)⟩] ∧
    (svc.setAppliedTags w.calls.length = Except.ok () →
      ∀ (later : Clock) (second : MessageEvent), second.author.bot = false →
        second.channelIsThread = true → second.mentionsClientUser = false →
        second.channel.id = message.channel.id →
        onMessageCreate svc env later second (onMessageCreate svc env now message w).2 =
          (Except.ok (), (onMessageCreate svc env now message w).2)) := by
  constructor
  · cases h : svc.setAppliedTags w.calls.length <;>
      simp [onMessageCreate, hhuman, hthread, hplain, hlack, Thread.setAppliedTags, h]
  · intro h later second h1 h2 h3 h4
    simp [onMessageCreate, hhuman, hthread, hplain, hlack, Thread.setAppliedTags, h, h1, h2,
      h3, h4]

/-- Witness for C7: a human message at 23:00 on a Wednesday, outside the time gate. -/
theorem human_reply_tag_idempotent_witness :
    (onMessageCreate (svcReplying none) demoEnv ⟨3, 23⟩ plainEvent emptyWorld).2.calls =
      emptyWorld.calls ++
        [⟨Call.setAppliedTags plainEvent.channel.id
            (emptyWorld.appliedTags plainEvent.channel.id ++ [demoEnv.HUMAN_REPLIED_TAG_ID]),
          resolved ((svcReplying none).setAppliedTags emptyWorld.calls.length)⟩] ∧
    ((svcReplying none).setAppliedTags emptyWorld.calls.length = Except.ok () →
      ∀ (later : Clock) (second : MessageEvent), second.author.bot = false →
        second.channelIsThread = true → second.mentionsClientUser = false →
        second.channel.id = plainEvent.channel.id →
        onMessageCreate (svcReplying none) demoEnv later second
            (onMessageCreate (svcReplying none) demoEnv ⟨3, 23⟩ plainEvent emptyWorld).2 =
          (Except.ok (),
            (onMessageCreate (svcReplying none) demoEnv ⟨3, 23⟩ plainEvent emptyWorld).2)) :=
  human_reply_tag_idempotent (svcReplying none) demoEnv ⟨3, 23⟩ plainEvent emptyWorld
    rfl rfl rfl (by simp [emptyWorld])

/-! ### The transcript -/

/-- The lines after the first, each preceded by a newline. -/
theorem intercalate_go (acc : String) (lines : List String) :
    String.intercalate.go acc "\n" lines = acc ++ joinLines ("" :: lines) := by
  induction lines generalizing acc with
  | nil => simp [String.intercalate.go, joinLines]
  | cons line rest ih =>
    rw [String.intercalate.go, ih]
    cases rest with
    | nil => simp [joinLines, String.append_assoc]
    | cons next more => simp [joinLines, String.append_assoc]

/-- Joining with `"\n"` as `Array.prototype.join` does is `joinLines`. -/
theorem intercalate_eq_joinLines (lines : List String) :
    "\n".intercalate lines = joinLines lines := by
  cases lines with
  | nil => rfl
  | cons line rest =>
    rw [String.intercalate, intercalate_go]
    cases rest with
    | nil => simp [joinLines]
    | cons next more => simp [joinLines, String.append_assoc]

/-- The text built at lines 94-98 is the transcript of the fetched messages put in
chronological order. -/
theorem conversation_eq_transcript (ms : List Message) :
    conversation ms = transcript ms.reverse := by
  unfold conversation transcript
  rw [intercalate_eq_joinLines]
  have hfilter : (fun m : Message => !m.author.bot) =
      (fun m : Message => decide (m.author.bot = false)) := by
    funext m
    cases m.author.bot <;> rfl
  rw [hfilter]
  rfl

/-- C8 (amended): for a human message in a thread that mentions the bot while the
time gate passes, and for every fetched list of messages (most recent first), the
handler fetches up to 100 messages and asks for a completion of the transcript of
the non-bot messages in chronological order; if the reply is null or empty it makes
no further call, and if the reply is a non-empty text it makes exactly one more
call, a `thread.send` of the lead-in sentence followed by the reply; no
`setAppliedTags` call is made and every tag set is unchanged. -/
theorem mention_reply (svc : Services) (env : Env) (now : Clock) (message : MessageEvent)
    (w : World) (ms : List Message) (reply : Option String)
    (hhuman : message.author.bot = false) (hthread : message.channelIsThread = true)
    (hmention : message.mentionsClientUser = true) (hallowed : isAllowedTime now = true)
    (hfetch : svc.messagesFetch w.calls.length = Except.ok ms)
    (hreply : ∀ text w1, w1.calls.length = w.calls.length + 1 →
      (generateAIReply svc text w1).1 = Except.ok reply) :
    (onMessageCreate svc env now message w).2.appliedTags = w.appliedTags ∧
    ((reply = none ∨ reply = some "") →
      (onMessageCreate svc env now message w).2.calls = w.calls ++
        [⟨Call.messagesFetch message.channel.id 100, true⟩,
         ⟨completionCall (transcript ms.reverse),
           resolved (svc.completionsCreate (w.calls.length + 1))⟩]) ∧
    (∀ text, reply = some text → text ≠ "" →
      (onMessageCreate svc env now message w).2.calls = w.calls ++
        [⟨Call.messagesFetch message.channel.id 100, true⟩,
         ⟨completionCall (transcript ms.reverse),
           resolved (svc.completionsCreate (w.calls.length + 1))⟩,
         ⟨Call.send message.channel.id (MENTION_LEAD_IN ++ text),
           resolved (svc.send (w.calls.length + 2))⟩]) := by
  have hr := replyOf_of_generateAIReply svc _ reply hreply
  rw [← conversation_eq_transcript]
  refine ⟨?_, ?_, ?_⟩
  · cases reply with
    | none =>
      simp [onMessageCreate, hhuman, hthread, hmention, hallowed, Thread.messagesFetch, hfetch,
        hr, truthy]
    | some text =>
      by_cases hne : text = ""
      · simp [onMessageCreate, hhuman, hthread, hmention, hallowed, Thread.messagesFetch,
          hfetch, hr, truthy, hne]
      · cases hs : svc.send (w.calls.length + 1 + 1) <;>
          simp [onMessageCreate, hhuman, hthread, hmention, hallowed, Thread.messagesFetch,
            hfetch, hr, truthy, hne, Thread.send, hs]
  · rintro (h | h) <;> subst h <;>
      simp [onMessageCreate, hhuman, hthread, hmention, hallowed, Thread.messagesFetch, hfetch,
        hr, truthy]
  · intro text h hne
    subst h
    cases hs : svc.send (w.calls.length + 1 + 1) <;>
      simp [onMessageCreate, hhuman, hthread, hmention, hallowed, Thread.messagesFetch,
        hfetch, hr, truthy, hne, Thread.send, hs]

/-- C8 (as stated) fails for the empty reply: the bot is mentioned at an allowed
hour, every call succeeds and `generateAIReply` resolves to the non-null text `""`,
yet the handler sends nothing. -/
theorem mention_empty_reply_not_sent :
    isAllowedTime wednesdayMorning = true ∧
    (generateAIReply (svcReplying (some "")) (conversation [question])
      { emptyWorld with calls := [⟨Call.messagesFetch "thread-1" 100, true⟩] }).1 =
      Except.ok (some "") ∧
    (onMessageCreate (svcReplying (some "")) demoEnv wednesdayMorning mentionEvent
        emptyWorld).2.calls =
      [⟨Call.messagesFetch "thread-1" 100, true⟩,
       ⟨completionCall "alice: 太陽系について教えてください", true⟩] :=
  ⟨rfl, rfl, rfl⟩

/-- Witness for C8 (amended): the reply `"answer"` is sent after the lead-in. -/
theorem mention_reply_witness :
    (onMessageCreate (svcReplying (some "answer")) demoEnv wednesdayMorning mentionEvent
        emptyWorld).2.calls =
      [⟨Call.messagesFetch "thread-1" 100, true⟩,
       ⟨completionCall (transcript [question]), true⟩,
       ⟨Call.send "thread-1" (MENTION_LEAD_IN ++ "answer"), true⟩] :=
  (mention_reply (svcReplying (some "answer")) demoEnv wednesdayMorning mentionEvent
    emptyWorld [question] (some "answer") rfl rfl rfl rfl rfl
    (fun _ _ _ => by simp [svcReplying, replyOf])).2.2 "answer" rfl (by decide)

/-! ## Failures inside the handlers -/

/-- The `clientReady` handler never rejects. -/
theorem onClientReady_resolves (svc : Services) (env : Env) (now : Clock) (w : World) :
    (onClientReady svc env now w).1 = Except.ok () := by
  unfold onClientReady scanUnansweredThreads
  by_cases h1 : isAllowedTime now = true
  · cases hc : svc.channelsFetch w.calls.length with
    | error e => simp [h1, hc]
    | ok fetched =>
      cases fetched with
      | none => simp [h1, hc]
      | some channel =>
        by_cases h2 : channel.type = ChannelType.GuildForum
        · cases hf : svc.fetchActive (w.calls.length + 1) with
          | error e => simp [h1, hc, h2, hf]
          | ok threads =>
            simp only [bind_run, consoleLog_run, tryCatch_run, h1, Bool.not_true,
              Bool.false_eq_true, if_false, ite_run, request_run, hc, h2, ne_eq,
              not_true_eq_false, List.length_append, List.length_singleton, hf]
            rw [scanLoop_run]
        · simp [h1, hc, h2]
  · simp [h1]

/-- The `threadCreate` handler never rejects. -/
theorem onThreadCreate_resolves (svc : Services) (env : Env) (now : Clock) (thread : Thread)
    (w : World) : (onThreadCreate svc env now thread w).1 = Except.ok () := by
  rw [onThreadCreate_run]
  split
  · exact handleThread_resolves svc env thread w
  · rfl

/-- C4 fails on the code: the `messageCreate` handler has no `try/catch`, so when
the platform rejects the message fetch of the mention path, or the tag update of
the bookkeeping path, the handler itself rejects with that error. -/
theorem onMessageCreate_rejects :
    (onMessageCreate svcPlatformDown demoEnv wednesdayMorning mentionEvent emptyWorld).1 =
      Except.error ⟨none⟩ ∧
    (onMessageCreate svcPlatformDown demoEnv wednesdayMorning plainEvent emptyWorld).1 =
      Except.error ⟨none⟩ :=
  ⟨rfl, rfl⟩

end FaqAI
